import Mathlib

/-!
# Verification of the LearnLanguage quiz engine

A shallow embedding of the quiz/test component of `tutor.py` (class
`TutorGUI`, methods `start_test_common`, `show_next_question`,
`check_answer`, and the content-generation query construction of
`Tutor.request_concept` / `Tutor.map_difficulty_to_level`).

Modelling conventions:
* The bilingual content `self.last_bilingual_content` is modelled as a
  list of (english, target) pairs, i.e. the result of
  `zip(untranslated_words, translated_words)` that `start_test_common`
  itself builds (tutor.py line 651).
* GUI state mutated by the test methods (`test_questions`, `score`,
  `total_questions`, `question_count`, `incorrect_items`,
  `current_question`, `test_mode`) becomes an explicit `TestState`
  record; each method becomes a pure state-passing function.
* Randomness (`random.shuffle` on the question list, `random.sample`
  for distractors, `random.shuffle` on the option list) is passed in as
  explicit parameters; theorems constrain them by exactly the
  postconditions those library functions guarantee (a permutation, and
  a without-replacement draw of the requested size).
* Python float division in the percentage computation is modelled by
  exact rational arithmetic over `ℚ`.
* The `int(...)` call on the max-options entry is modelled by
  `parse_int`, covering optional surrounding whitespace and an optional
  sign followed by decimal digits; any other text parses to `none`
  (the `except` branch of the source).
-/

/-! ## Content generation (Tutor.request_concept, tutor.py lines 111-166) -/

/-- Python `str.lower()` on the difficulty argument, character by
character (ASCII case mapping, which covers every key of the lookup
table below). -/
def py_lower (s : String) : String :=
  String.mk (s.data.map Char.toLower)

/-- `Tutor.map_difficulty_to_level` (tutor.py lines 149-166): dictionary
lookup of the lower-cased argument with fallback `"Intermediate"`. -/
def map_difficulty_to_level (difficulty : String) : String :=
  match py_lower difficulty with
  | "beginner" => "Beginner"
  | "elementary" => "Elementary"
  | "intermediate" => "Intermediate"
  | "advanced" => "Advanced"
  | "expert" => "Expert"
  | _ => "Intermediate"

/-- The ASCII apostrophe character (\x27) used as quoting in the source
f-string, kept out of Lean string literals. -/
def apostrophe : String := String.singleton (Char.ofNat 39)

/-- The user-query f-string of `Tutor.request_concept` (tutor.py lines
127-135), with the difficulty-label slot abstracted so that theorems can
state which expression the source plugs into that slot. -/
def request_concept_user_query_with_label (concept : String) (num_items : Nat)
    (label : String) (target_language : String) : String :=
  "Provide two lists (original untranslated - translated) to teach the language related to the concept "
  ++ apostrophe ++ concept ++ apostrophe
  ++ " which is an explicit request from the user. "
  ++ "Generate " ++ toString num_items
  ++ " items for each list: English items (untranslated) and their translations into the target language. "
  ++ "The items can be words, phrases, or sentences ; depending on the request! (so read carefully) Just anything typical to tutor the user. "
  ++ "The items are either in-first-person saying or general words/phrases/sentences. "
  ++ "Provide letters as items if alphabet is requested."
  ++ "Difficulty level: " ++ apostrophe ++ label ++ apostrophe
  ++ ", adjust your response accordingly! ; There are five difficulty levels: 1. Beginner, 2. Elementary, 3. Intermediate, 4. Advanced, 5. Expert. "
  ++ "Target language: " ++ apostrophe ++ target_language ++ apostrophe ++ ". "

/-- The query actually built by `Tutor.request_concept` (tutor.py line
133): the label slot is filled with
`self.map_difficulty_to_level(target_language)` — the *language code*
is passed where a difficulty is expected. -/
def request_concept_user_query (concept : String) (num_items : Nat)
    (target_language : String) : String :=
  request_concept_user_query_with_label concept num_items
    (map_difficulty_to_level target_language) target_language

/-- The query produced by `TutorGUI.process_learning` (tutor.py line
507): it calls `request_concept(concept, num_items, language)`; its
`difficulty_level` argument is not forwarded. -/
def process_learning_query (concept : String) (language : String)
    (num_items : Nat) (_difficulty_level : String) : String :=
  request_concept_user_query concept num_items language

/-! ## Quiz data model -/

/-- Test mode selected by `start_test_verbal` / `start_test_audio`
(tutor.py lines 629-639): the string field `self.test_mode`. -/
inductive TestMode
  | verbal
  | audio
deriving DecidableEq, Repr

/-- The mutable GUI state that the testing component reads and writes
(fields set in `start_test_common`, tutor.py lines 651-666). -/
structure TestState where
  content : List (String × String)
  test_questions : List (String × String)
  score : Nat
  total_questions : Nat
  question_count : Nat
  incorrect_items : List (Nat × String × String × String)
  current_question : Option (String × String)
  test_mode : TestMode
deriving DecidableEq, Repr

/-- A state with empty content, used only to destruct `Option` results
at concrete inputs. -/
def default_test_state : TestState :=
  { content := [], test_questions := [], score := 0, total_questions := 0,
    question_count := 0, incorrect_items := [], current_question := none,
    test_mode := TestMode.verbal }

/-- What one call of `show_next_question` displays: either the final
report (score, total, feedback, incorrect items sorted by order;
tutor.py lines 752-766) or the next question (question text and the
shuffled option list rendered as radio buttons; lines 768-799). -/
inductive NextResult
  | finished (score : Nat) (total : Nat) (feedback : String)
      (incorrectSorted : List (Nat × String × String × String))
  | question (questionText : String) (options : List String)
deriving DecidableEq, Repr

/-- Outcome of one `check_answer` call (tutor.py lines 801-824):
the blank-selection guard, the unguarded `None` subscript (only
reachable if no question was ever shown), or recording the answer and
advancing via `show_next_question`. -/
inductive CheckResult
  | noSelection
  | noActiveQuestion
  | advanced (next : NextResult)
deriving DecidableEq, Repr

def NextResult.isFinished : NextResult → Bool
  | NextResult.finished _ _ _ _ => true
  | NextResult.question _ _ => false

def NextResult.isQuestion : NextResult → Bool
  | NextResult.finished _ _ _ _ => false
  | NextResult.question _ _ => true

/-- The option list carried by a `question` result. -/
def NextResult.optionList : NextResult → List String
  | NextResult.finished _ _ _ _ => []
  | NextResult.question _ opts => opts

def CheckResult.isFinishedReport : CheckResult → Bool
  | CheckResult.advanced (NextResult.finished _ _ _ _) => true
  | _ => false

/-! ## Final report helpers (tutor.py lines 753-760) -/

/-- `(self.score / self.total_questions) * 100 if self.total_questions > 0 else 0`
(tutor.py line 754), with Python float division modelled exactly on `ℚ`. -/
def percentage (score total : Nat) : ℚ :=
  if total > 0 then (score : ℚ) / (total : ℚ) * 100 else 0

/-- The chained conditional of tutor.py line 755. -/
def feedback_text (score total : Nat) : String :=
  if percentage score total ≥ 80 then "Excellent job!"
  else if percentage score total ≥ 50 then "Good effort, keep practicing!"
  else "Needs more practice."

/-- Stable insertion used to model `sorted(self.incorrect_items, key=lambda x: x[0])`
(tutor.py line 759). -/
def insert_incorrect (x : Nat × String × String × String) :
    List (Nat × String × String × String) → List (Nat × String × String × String)
  | [] => [x]
  | y :: ys => if y.1 ≤ x.1 then y :: insert_incorrect x ys else x :: y :: ys

/-- Stable sort of the incorrect-item records by their recorded order,
as in tutor.py line 759. -/
def sort_incorrect (l : List (Nat × String × String × String)) :
    List (Nat × String × String × String) :=
  l.foldl (fun acc x => insert_incorrect x acc) []

/-! ## Max-options entry parsing (tutor.py lines 770-776) -/

def digits_to_nat (cs : List Char) : Nat :=
  cs.foldl (fun a c => a * 10 + (c.toNat - 48)) 0

/-- Model of CPython `int(text)` on the entry text: optional surrounding
whitespace, an optional sign, then decimal digits; anything else raises
(modelled as `none`, the `except` branch at tutor.py line 775). -/
def parse_int (s : String) : Option Int :=
  let cs := ((s.toList.dropWhile Char.isWhitespace).reverse.dropWhile
      Char.isWhitespace).reverse
  match cs with
  | '-' :: ds =>
    if ds ≠ [] ∧ ds.all Char.isDigit then some (-(digits_to_nat ds : Int)) else none
  | '+' :: ds =>
    if ds ≠ [] ∧ ds.all Char.isDigit then some ((digits_to_nat ds : Int)) else none
  | ds =>
    if ds ≠ [] ∧ ds.all Char.isDigit then some ((digits_to_nat ds : Int)) else none

/-- tutor.py lines 770-776: `max_display = int(entry)`; values below 2
and unparseable text both fall back to 4. -/
def effective_max_display (entry : String) : Int :=
  match parse_int entry with
  | none => 4
  | some n => if n < 2 then 4 else n

/-! ## Question construction (tutor.py lines 778-799) -/

/-- tutor.py lines 780 and 784 / 811-814: the correct answer is the
target text in verbal mode and the English text in audio mode. -/
def correct_answer (mode : TestMode) (q : String × String) : String :=
  match mode with
  | TestMode.verbal => q.2
  | TestMode.audio => q.1

/-- tutor.py lines 779 and 783: the displayed question text. -/
def question_text (mode : TestMode) (q : String × String) : String :=
  match mode with
  | TestMode.verbal =>
    "What is the translation for:\n\n---- \"" ++ q.1 ++ "\" ----"
  | TestMode.audio =>
    "Listen to the audio and select the correct English sentence."

/-- tutor.py lines 781 and 785: `set(translated_words)` in verbal mode,
`set(untranslated_words)` in audio mode — the deduplicated opposite-side
texts of the content. -/
def answer_pool (st : TestState) : List String :=
  match st.test_mode with
  | TestMode.verbal => (st.content.map Prod.snd).dedup
  | TestMode.audio => (st.content.map Prod.fst).dedup

/-- Order-preserving insertion for `sort_strings`. -/
def insert_sorted (x : String) : List String → List String
  | [] => [x]
  | y :: ys => if x < y then x :: y :: ys else y :: insert_sorted x ys

/-- Model of Python `sorted(...)` on the distractor pool
(tutor.py line 791). -/
def sort_strings : List String → List String
  | [] => []
  | x :: xs => insert_sorted x (sort_strings xs)

/-- tutor.py lines 790-791: drop the correct answer from the pool, then
`random.sample(sorted(pool), min(max_display - 1, len(pool))) if pool else []`.
`sample` is the injected randomness of `random.sample`. -/
def show_distractors (st : TestState)
    (sample : List String → Nat → List String)
    (entry : String) (q : String × String) : List String :=
  let correct := correct_answer st.test_mode q
  let pool := (answer_pool st).filter (fun x => x ≠ correct)
  if pool.isEmpty then []
  else sample (sort_strings pool)
    (min ((effective_max_display entry) - 1).toNat pool.length)

/-- `TutorGUI.show_next_question` (tutor.py lines 729-799).
`sample` models `random.sample`, `shuf` models the `random.shuffle` of
the option list (line 793), `entry` is the text of the max-options
entry widget. The question counter is incremented before the
empty-queue check, exactly as at line 744. -/
def show_next_question (st : TestState)
    (sample : List String → Nat → List String)
    (shuf : List String → List String) (entry : String) :
    TestState × NextResult :=
  match st.test_questions with
  | [] =>
    ({ st with question_count := st.question_count + 1 },
     NextResult.finished st.score st.total_questions
       (feedback_text st.score st.total_questions)
       (sort_incorrect st.incorrect_items))
  | q :: rest =>
    ({ st with question_count := st.question_count + 1,
               current_question := some q, test_questions := rest },
     NextResult.question (question_text st.test_mode q)
       (shuf (show_distractors st sample entry q ++ [correct_answer st.test_mode q])))

/-- The recording step of `check_answer` (tutor.py lines 811-821):
a wrong answer appends `(question_count, english_text, correct, chosen)`
to `incorrect_items`; a right answer increments the score. -/
def record_answer (st : TestState) (q : String × String) (chosen : String) :
    TestState :=
  if chosen ≠ correct_answer st.test_mode q then
    { st with incorrect_items := st.incorrect_items
        ++ [(st.question_count, q.1, correct_answer st.test_mode q, chosen)] }
  else
    { st with score := st.score + 1 }

/-- `TutorGUI.check_answer` (tutor.py lines 801-824): guard against a
blank selection, record the answer, then advance via
`show_next_question`. -/
def check_answer (st : TestState) (chosen : String)
    (sample : List String → Nat → List String)
    (shuf : List String → List String) (entry : String) :
    TestState × CheckResult :=
  if chosen = "" then (st, CheckResult.noSelection)
  else
    match st.current_question with
    | none => (st, CheckResult.noActiveQuestion)
    | some q =>
      let p := show_next_question (record_answer st q chosen) sample shuf entry
      (p.1, CheckResult.advanced p.2)

/-- `TutorGUI.start_test_common` (tutor.py lines 641-668) up to the
first `show_next_question` call: guard against empty content, build the
question queue (`shuffled` models the result of `random.shuffle` on the
zipped pair list; theorems constrain it to be a permutation of
`content`), and reset score, total, counter and incorrect log. -/
def start_test_common (mode : TestMode) (content : List (String × String))
    (shuffled : List (String × String)) : Option TestState :=
  if content.isEmpty then none
  else some
    { content := content, test_questions := shuffled, score := 0,
      total_questions := shuffled.length, question_count := 0,
      incorrect_items := [], current_question := none, test_mode := mode }

/-! ## Session driver

The driving loop of the presentation layer: `start_test_common` calls
`show_next_question` once (tutor.py line 668), after which every submit
click runs `check_answer` (which itself ends in `show_next_question`,
line 824). `run_answers` submits a list of answers in order, collecting
every newly presented question and the outcome of the last submit. -/

def run_answers (sample : List String → Nat → List String)
    (shuf : List String → List String) (entry : String) :
    TestState → List String →
      TestState × List (String × String) × Option CheckResult
  | st, [] => (st, [], none)
  | st, a :: rest =>
    let p := check_answer st a sample shuf entry
    let popped : List (String × String) :=
      match p.2 with
      | CheckResult.advanced (NextResult.question _ _) =>
        p.1.current_question.toList
      | _ => []
    let r := run_answers sample shuf entry p.1 rest
    (r.1, popped ++ r.2.1, some (r.2.2.getD p.2))

/-- Whether the last recorded submit outcome displayed the final report. -/
def finished_last (o : Option CheckResult) : Bool :=
  match o with
  | some r => r.isFinishedReport
  | none => false

/-- `TutorGUI.play_current_audio` (tutor.py lines 717-727): in audio
mode the audio played for the current question is synthesized from the
*target*-language text `current_question[1]`; in verbal mode no audio
is played. -/
def play_current_audio_text (st : TestState) : Option String :=
  match st.current_question, st.test_mode with
  | some q, TestMode.audio => some q.2
  | _, _ => none

/-! ## Concrete instantiations used to evaluate the engine -/

/-- A deterministic instantiation of `random.sample`: take the first
`k` elements. It satisfies the postcondition of `random.sample`. -/
def take_sample : List String → Nat → List String := fun l k => l.take k

/-- The state `start_test_common` builds for the two pairs
(hello, hola), (cat, gato) when the shuffle reverses the list. -/
def start_two_pairs : TestState :=
  { content := [("hello", "hola"), ("cat", "gato")],
    test_questions := [("cat", "gato"), ("hello", "hola")], score := 0,
    total_questions := 2, question_count := 0, incorrect_items := [],
    current_question := none, test_mode := TestMode.verbal }

/-- A mid-session state over content with duplicate target texts,
one pair still pending. -/
def question_state_dups : TestState :=
  { content := [("a", "x"), ("b", "x"), ("c", "y")],
    test_questions := [("a", "x")], score := 0, total_questions := 3,
    question_count := 0, incorrect_items := [], current_question := none,
    test_mode := TestMode.verbal }

/-- The state of a completed single-pair session (the pair was answered
correctly and the report has been displayed once). -/
def completed_state_one_pair : TestState :=
  { content := [("hello", "hola")], test_questions := [], score := 1,
    total_questions := 1, question_count := 2, incorrect_items := [],
    current_question := some ("hello", "hola"), test_mode := TestMode.verbal }

/-- A mid-session state in audio mode with a question presented. -/
def audio_question_state : TestState :=
  { content := [("hello", "hola"), ("cat", "gato")],
    test_questions := [("cat", "gato")], score := 0, total_questions := 2,
    question_count := 1, incorrect_items := [],
    current_question := some ("hello", "hola"), test_mode := TestMode.audio }

/-! ## Helper lemmas -/

@[simp] theorem record_answer_test_questions (st : TestState) (q : String × String)
    (c : String) : (record_answer st q c).test_questions = st.test_questions := by
  unfold record_answer; split <;> rfl

@[simp] theorem record_answer_current_question (st : TestState) (q : String × String)
    (c : String) : (record_answer st q c).current_question = st.current_question := by
  unfold record_answer; split <;> rfl

@[simp] theorem record_answer_total_questions (st : TestState) (q : String × String)
    (c : String) : (record_answer st q c).total_questions = st.total_questions := by
  unfold record_answer; split <;> rfl

@[simp] theorem record_answer_content (st : TestState) (q : String × String)
    (c : String) : (record_answer st q c).content = st.content := by
  unfold record_answer; split <;> rfl

@[simp] theorem record_answer_test_mode (st : TestState) (q : String × String)
    (c : String) : (record_answer st q c).test_mode = st.test_mode := by
  unfold record_answer; split <;> rfl

theorem record_answer_sum (st : TestState) (q : String × String) (c : String) :
    (record_answer st q c).score + (record_answer st q c).incorrect_items.length
      = st.score + st.incorrect_items.length + 1 := by
  unfold record_answer; split <;> simp <;> omega

theorem show_next_question_nil (st : TestState)
    (sample : List String → Nat → List String) (shuf : List String → List String)
    (entry : String) (h : st.test_questions = []) :
    show_next_question st sample shuf entry =
      ({ st with question_count := st.question_count + 1 },
       NextResult.finished st.score st.total_questions
         (feedback_text st.score st.total_questions)
         (sort_incorrect st.incorrect_items)) := by
  unfold show_next_question
  rw [h]

theorem show_next_question_cons (st : TestState)
    (sample : List String → Nat → List String) (shuf : List String → List String)
    (entry : String) (q : String × String) (rest : List (String × String))
    (h : st.test_questions = q :: rest) :
    show_next_question st sample shuf entry =
      ({ st with question_count := st.question_count + 1,
                 current_question := some q, test_questions := rest },
       NextResult.question (question_text st.test_mode q)
         (shuf (show_distractors st sample entry q
            ++ [correct_answer st.test_mode q]))) := by
  unfold show_next_question
  rw [h]

theorem insert_sorted_perm (x : String) (l : List String) :
    (insert_sorted x l).Perm (x :: l) := by
  induction l with
  | nil => simp [insert_sorted]
  | cons y ys ih =>
    unfold insert_sorted
    split
    · exact List.Perm.refl _
    · exact (ih.cons y).trans (List.Perm.swap x y ys)

theorem sort_strings_perm (l : List String) : (sort_strings l).Perm l := by
  induction l with
  | nil => simp [sort_strings]
  | cons x xs ih =>
    exact (insert_sorted_perm x (sort_strings xs)).trans (ih.cons x)

theorem answer_pool_nodup (st : TestState) : (answer_pool st).Nodup := by
  unfold answer_pool
  cases st.test_mode <;> exact List.nodup_dedup _

theorem effective_max_display_ge_two (entry : String) :
    2 ≤ effective_max_display entry := by
  unfold effective_max_display
  cases parse_int entry with
  | none => norm_num
  | some n =>
    dsimp only
    split <;> omega

theorem show_distractors_spec (st : TestState)
    (sample : List String → Nat → List String) (entry : String)
    (q : String × String)
    (hsample : ∀ (l : List String) (k : Nat), k ≤ l.length →
      (sample l k).length = k ∧ List.Subperm (sample l k) l) :
    (show_distractors st sample entry q).length
      = min ((effective_max_display entry) - 1).toNat
          (((answer_pool st).filter
            (fun x => x ≠ correct_answer st.test_mode q)).length) ∧
    (show_distractors st sample entry q).Nodup ∧
    correct_answer st.test_mode q ∉ show_distractors st sample entry q := by
  have hpn : ((answer_pool st).filter
      (fun x => x ≠ correct_answer st.test_mode q)).Nodup :=
    (answer_pool_nodup st).filter _
  have hsortperm := sort_strings_perm ((answer_pool st).filter
      (fun x => x ≠ correct_answer st.test_mode q))
  simp only [show_distractors]
  by_cases hpe : ((answer_pool st).filter
      (fun x => x ≠ correct_answer st.test_mode q)) = []
  · rw [hpe]
    simp
  · rw [if_neg (fun h => hpe (List.isEmpty_iff.mp h))]
    have hk : min ((effective_max_display entry) - 1).toNat
        (((answer_pool st).filter
          (fun x => x ≠ correct_answer st.test_mode q)).length)
        ≤ (sort_strings ((answer_pool st).filter
          (fun x => x ≠ correct_answer st.test_mode q))).length := by
      rw [hsortperm.length_eq]
      exact Nat.min_le_right _ _
    obtain ⟨hlen, hsub⟩ := hsample _ _ hk
    refine ⟨hlen, ?_, ?_⟩
    · obtain ⟨l', hp, hs⟩ := hsub
      have hsn : (sort_strings ((answer_pool st).filter
          (fun x => x ≠ correct_answer st.test_mode q))).Nodup :=
        hsortperm.nodup_iff.mpr hpn
      exact hp.nodup_iff.mp (hs.nodup hsn)
    · intro hmem
      have h1 := hsub.subset hmem
      have h2 := hsortperm.subset h1
      have h3 := List.of_mem_filter h2
      simp at h3

theorem option_list_spec (st : TestState)
    (sample : List String → Nat → List String) (shuf : List String → List String)
    (entry : String) (q : String × String) (rest : List (String × String))
    (hq : st.test_questions = q :: rest)
    (hsample : ∀ (l : List String) (k : Nat), k ≤ l.length →
      (sample l k).length = k ∧ List.Subperm (sample l k) l)
    (hshuf : ∀ l : List String, (shuf l).Perm l) :
    (show_next_question st sample shuf entry).2 =
      NextResult.question (question_text st.test_mode q)
        ((show_next_question st sample shuf entry).2.optionList) ∧
    ((show_next_question st sample shuf entry).2.optionList).count
        (correct_answer st.test_mode q) = 1 ∧
    ((show_next_question st sample shuf entry).2.optionList).length
      = min (effective_max_display entry).toNat
          ((((answer_pool st).filter
              (fun x => x ≠ correct_answer st.test_mode q)).length) + 1) ∧
    ((show_next_question st sample shuf entry).2.optionList).Nodup ∧
    (((answer_pool st).filter (fun x => x ≠ correct_answer st.test_mode q)) = []
      → (show_next_question st sample shuf entry).2.optionList
          = [correct_answer st.test_mode q]) := by
  rw [show_next_question_cons st sample shuf entry q rest hq]
  obtain ⟨hdlen, hdnodup, hdnotmem⟩ :=
    show_distractors_spec st sample entry q hsample
  dsimp only [NextResult.optionList]
  have hperm := hshuf (show_distractors st sample entry q
    ++ [correct_answer st.test_mode q])
  refine ⟨rfl, ?_, ?_, ?_, ?_⟩
  · rw [hperm.count_eq, List.count_append, List.count_eq_zero.mpr hdnotmem]
    simp
  · rw [hperm.length_eq, List.length_append, hdlen]
    have h2 := effective_max_display_ge_two entry
    simp only [List.length_singleton]
    omega
  · refine hperm.nodup_iff.mpr ?_
    refine List.Nodup.append hdnodup (List.nodup_singleton _) ?_
    intro x hx hx'
    rw [List.mem_singleton] at hx'
    subst hx'
    exact hdnotmem hx
  · intro hpe
    have hd0 : (show_distractors st sample entry q).length = 0 := by
      rw [hdlen, hpe]
      simp
    have hde : show_distractors st sample entry q = [] :=
      List.eq_nil_of_length_eq_zero hd0
    rw [hde, List.nil_append] at hperm ⊢
    exact List.perm_singleton.mp hperm

theorem check_answer_step_nil (st : TestState) (c : String × String) (a : String)
    (sample : List String → Nat → List String) (shuf : List String → List String)
    (entry : String) (hc : st.current_question = some c) (ha : a ≠ "")
    (hq : st.test_questions = []) :
    check_answer st a sample shuf entry =
      ({ record_answer st c a with
          question_count := (record_answer st c a).question_count + 1 },
       CheckResult.advanced (NextResult.finished (record_answer st c a).score
         (record_answer st c a).total_questions
         (feedback_text (record_answer st c a).score
           (record_answer st c a).total_questions)
         (sort_incorrect (record_answer st c a).incorrect_items))) := by
  unfold check_answer
  rw [if_neg ha, hc]
  dsimp only
  rw [show_next_question_nil _ _ _ _
    (by rw [record_answer_test_questions]; exact hq)]

theorem check_answer_step_cons (st : TestState) (c d : String × String)
    (ltail : List (String × String)) (a : String)
    (sample : List String → Nat → List String) (shuf : List String → List String)
    (entry : String) (hc : st.current_question = some c) (ha : a ≠ "")
    (hq : st.test_questions = d :: ltail) :
    check_answer st a sample shuf entry =
      ({ record_answer st c a with
          question_count := (record_answer st c a).question_count + 1,
          current_question := some d, test_questions := ltail },
       CheckResult.advanced (NextResult.question
         (question_text (record_answer st c a).test_mode d)
         (shuf (show_distractors (record_answer st c a) sample entry d
            ++ [correct_answer (record_answer st c a).test_mode d])))) := by
  unfold check_answer
  rw [if_neg ha, hc]
  dsimp only
  rw [show_next_question_cons _ _ _ _ d ltail
    (by rw [record_answer_test_questions]; exact hq)]

theorem finished_last_getD (o : Option CheckResult) (r : CheckResult)
    (h : finished_last o = true) :
    finished_last (some (o.getD r)) = true := by
  cases o with
  | none => simp [finished_last] at h
  | some x => exact h

theorem run_answers_invariant (sample : List String → Nat → List String)
    (shuf : List String → List String) (entry : String) :
    ∀ (answers : List String) (st : TestState) (c : String × String),
      st.current_question = some c →
      (∀ a ∈ answers, a ≠ "") →
      answers.length ≤ st.test_questions.length + 1 →
      (run_answers sample shuf entry st answers).2.1
          = st.test_questions.take answers.length ∧
      (run_answers sample shuf entry st answers).1.test_questions
          = st.test_questions.drop answers.length ∧
      (run_answers sample shuf entry st answers).1.score
          + (run_answers sample shuf entry st answers).1.incorrect_items.length
          = st.score + st.incorrect_items.length + answers.length ∧
      (run_answers sample shuf entry st answers).1.total_questions
          = st.total_questions ∧
      (answers.length = st.test_questions.length + 1 →
        finished_last (run_answers sample shuf entry st answers).2.2 = true) := by
  intro answers
  induction answers with
  | nil =>
    intro st c hc hans hlen
    refine ⟨by simp [run_answers], by simp [run_answers],
      by simp [run_answers], by simp [run_answers], ?_⟩
    intro h
    simp at h
  | cons a rest ih =>
    intro st c hc hans hlen
    have ha : a ≠ "" := hans a (List.mem_cons_self a rest)
    have hans' : ∀ x ∈ rest, x ≠ "" := fun x hx => hans x (List.mem_cons_of_mem a hx)
    cases hql : st.test_questions with
    | nil =>
      have hrest : rest = [] := by
        rw [hql] at hlen
        simp only [List.length_cons, List.length_nil] at hlen
        exact List.eq_nil_of_length_eq_zero (by omega)
      subst hrest
      simp only [run_answers]
      rw [check_answer_step_nil st c a sample shuf entry hc ha hql]
      dsimp only
      refine ⟨by simp [hql], ?_, ?_, ?_, ?_⟩
      · simp [record_answer_test_questions, hql]
      · have := record_answer_sum st c a
        simp only [List.length_cons, List.length_nil]
        omega
      · simp [record_answer_total_questions]
      · intro _
        rfl
    | cons d ltail =>
      simp only [run_answers]
      rw [check_answer_step_cons st c d ltail a sample shuf entry hc ha hql]
      dsimp only
      have hlen' : rest.length ≤ ltail.length + 1 := by
        rw [hql] at hlen
        simp at hlen
        omega
      obtain ⟨ih1, ih2, ih3, ih4, ih5⟩ :=
        ih ({ record_answer st c a with
              question_count := (record_answer st c a).question_count + 1,
              current_question := some d, test_questions := ltail }) d rfl hans'
          (by dsimp only; omega)
      dsimp only at ih1 ih2 ih3 ih4 ih5
      refine ⟨?_, ?_, ?_, ?_, ?_⟩
      · rw [ih1]
        simp [hql, Option.toList]
      · rw [ih2]
        simp [hql]
      · rw [ih3]
        have := record_answer_sum st c a
        simp only [List.length_cons]
        omega
      · rw [ih4]
        simp [record_answer_total_questions]
      · intro hfull
        simp only [List.length_cons] at hfull
        exact finished_last_getD _ _ (ih5 (by omega))

/-! ## Claim theorems -/

/-- Claim C1: for every non-empty list of bilingual pairs, starting a
session (whose shuffled queue `q` is a permutation of the pairs, as
`random.shuffle` guarantees) and then submitting exactly
`pairs.length` non-blank answers through the question/answer cycle
reaches the completed state: the final report is displayed and the
pending queue is empty, and the questions presented — the one shown by
`start_test_common` itself plus one per submitted answer — are exactly
the queue `q`, dequeued front to back, a permutation of the input
pairs with no repeats and no omissions. -/
theorem c1_session_presents_each_pair_once
    (content q : List (String × String)) (mode : TestMode)
    (sample : List String → Nat → List String) (shuf : List String → List String)
    (entry : String) (answers : List String)
    (hne : content ≠ []) (hq : q.Perm content)
    (hlen : answers.length = content.length)
    (hans : ∀ a ∈ answers, a ≠ "") :
    ∀ st0, start_test_common mode content q = some st0 →
      ((show_next_question st0 sample shuf entry).1.current_question.toList
          ++ (run_answers sample shuf entry
              (show_next_question st0 sample shuf entry).1 answers).2.1) = q ∧
      List.Perm
        ((show_next_question st0 sample shuf entry).1.current_question.toList
          ++ (run_answers sample shuf entry
              (show_next_question st0 sample shuf entry).1 answers).2.1) content ∧
      (run_answers sample shuf entry
          (show_next_question st0 sample shuf entry).1 answers).1.test_questions
        = [] ∧
      finished_last (run_answers sample shuf entry
          (show_next_question st0 sample shuf entry).1 answers).2.2 = true := by
  intro st0 hst0
  unfold start_test_common at hst0
  rw [if_neg (fun h => hne (List.isEmpty_iff.mp h))] at hst0
  injection hst0 with hst0
  subst hst0
  cases hqq : q with
  | nil =>
    exfalso
    subst hqq
    exact hne hq.symm.eq_nil
  | cons p qt =>
    rw [hqq] at hq
    have hcount : answers.length = qt.length + 1 := by
      have h1 : (p :: qt).length = content.length := hq.length_eq
      simp only [List.length_cons] at h1
      omega
    have hshow := show_next_question_cons
      { content := content, test_questions := p :: qt, score := 0,
        total_questions := (p :: qt).length, question_count := 0,
        incorrect_items := [], current_question := none, test_mode := mode }
      sample shuf entry p qt rfl
    have hcur : (show_next_question
        { content := content, test_questions := p :: qt, score := 0,
          total_questions := (p :: qt).length, question_count := 0,
          incorrect_items := [], current_question := none, test_mode := mode }
        sample shuf entry).1.current_question = some p := by
      rw [hshow]
    have htq : (show_next_question
        { content := content, test_questions := p :: qt, score := 0,
          total_questions := (p :: qt).length, question_count := 0,
          incorrect_items := [], current_question := none, test_mode := mode }
        sample shuf entry).1.test_questions = qt := by
      rw [hshow]
    obtain ⟨i1, i2, i3, i4, i5⟩ := run_answers_invariant sample shuf entry answers
      (show_next_question
        { content := content, test_questions := p :: qt, score := 0,
          total_questions := (p :: qt).length, question_count := 0,
          incorrect_items := [], current_question := none, test_mode := mode }
        sample shuf entry).1 p hcur hans (by rw [htq]; omega)
    rw [htq] at i1 i2 i5
    have htake : qt.take answers.length = qt :=
      List.take_of_length_le (by omega)
    refine ⟨?_, ?_, ?_, ?_⟩
    · rw [hcur, i1, htake]
      rfl
    · rw [hcur, i1, htake]
      exact hq
    · rw [i2]
      exact List.drop_eq_nil_of_le (by omega)
    · exact i5 (by omega)

theorem take_sample_spec : ∀ (l : List String) (k : Nat), k ≤ l.length →
    (take_sample l k).length = k ∧ List.Subperm (take_sample l k) l := by
  intro l k h
  refine ⟨?_, (List.take_sublist k l).subperm⟩
  simp only [take_sample, List.length_take]
  omega

theorem show_next_question_incorrect_items (st : TestState)
    (sample : List String → Nat → List String) (shuf : List String → List String)
    (entry : String) :
    (show_next_question st sample shuf entry).1.incorrect_items
      = st.incorrect_items := by
  cases h : st.test_questions with
  | nil => rw [show_next_question_nil st sample shuf entry h]
  | cons d l => rw [show_next_question_cons st sample shuf entry d l h]

theorem show_next_question_entry_congr (st : TestState)
    (sample : List String → Nat → List String) (shuf : List String → List String)
    (e₁ e₂ : String) (h : effective_max_display e₁ = effective_max_display e₂) :
    show_next_question st sample shuf e₁ = show_next_question st sample shuf e₂ := by
  unfold show_next_question show_distractors
  rw [h]

/-- Claim C2: the option set of every question contains the correct answer
exactly once and has length `min(maxOptions, poolSize + 1)`, where
`maxOptions` is the effective max-options value and the pool is the
deduplicated set of opposite-side texts of all input pairs minus the
correct answer; when the pool is empty (e.g. a single-pair session)
the option set is exactly the correct answer alone. The randomness
hypotheses are the postconditions of `random.sample` (a
without-replacement draw of the requested size) and `random.shuffle`
(a permutation). -/
theorem c2_option_set_correct_and_size (st : TestState)
    (sample : List String → Nat → List String) (shuf : List String → List String)
    (entry : String) (q : String × String) (rest : List (String × String))
    (hq : st.test_questions = q :: rest)
    (hsample : ∀ (l : List String) (k : Nat), k ≤ l.length →
      (sample l k).length = k ∧ List.Subperm (sample l k) l)
    (hshuf : ∀ l : List String, (shuf l).Perm l) :
    ((show_next_question st sample shuf entry).2.optionList).count
        (correct_answer st.test_mode q) = 1 ∧
    ((show_next_question st sample shuf entry).2.optionList).length
      = min (effective_max_display entry).toNat
          ((((answer_pool st).filter
              (fun x => x ≠ correct_answer st.test_mode q)).length) + 1) ∧
    (((answer_pool st).filter (fun x => x ≠ correct_answer st.test_mode q)) = []
      → (show_next_question st sample shuf entry).2.optionList
          = [correct_answer st.test_mode q]) := by
  obtain ⟨h1, h2, h3, h4, h5⟩ :=
    option_list_spec st sample shuf entry q rest hq hsample hshuf
  exact ⟨h2, h3, h5⟩

theorem c2_option_set_correct_and_size_witness :
    (question_state_dups.test_questions = [("a", "x")]) ∧
    (((show_next_question question_state_dups take_sample id "5").2.optionList).count
        (correct_answer question_state_dups.test_mode ("a", "x")) = 1 ∧
    ((show_next_question question_state_dups take_sample id "5").2.optionList).length
      = min (effective_max_display "5").toNat
          ((((answer_pool question_state_dups).filter
              (fun x => x ≠ correct_answer question_state_dups.test_mode ("a", "x"))).length) + 1) ∧
    (((answer_pool question_state_dups).filter
        (fun x => x ≠ correct_answer question_state_dups.test_mode ("a", "x"))) = []
      → (show_next_question question_state_dups take_sample id "5").2.optionList
          = [correct_answer question_state_dups.test_mode ("a", "x")])) :=
  ⟨rfl, c2_option_set_correct_and_size question_state_dups take_sample id "5"
    ("a", "x") [] rfl take_sample_spec (fun l => List.Perm.refl l)⟩

/-- Claim C10: the displayed options of every question are pairwise
distinct, even when the input pairs contain duplicate texts: the pool
is deduplicated, the correct answer is removed before sampling, and
`random.sample` draws without replacement, so no option appears twice
in one option set. -/
theorem c10_options_pairwise_distinct (st : TestState)
    (sample : List String → Nat → List String) (shuf : List String → List String)
    (entry : String) (q : String × String) (rest : List (String × String))
    (hq : st.test_questions = q :: rest)
    (hsample : ∀ (l : List String) (k : Nat), k ≤ l.length →
      (sample l k).length = k ∧ List.Subperm (sample l k) l)
    (hshuf : ∀ l : List String, (shuf l).Perm l) :
    (show_next_question st sample shuf entry).2.isQuestion = true ∧
    ((show_next_question st sample shuf entry).2.optionList).Nodup := by
  obtain ⟨h1, h2, h3, h4, h5⟩ :=
    option_list_spec st sample shuf entry q rest hq hsample hshuf
  refine ⟨?_, h4⟩
  rw [h1]
  rfl

theorem c10_options_pairwise_distinct_witness :
    (question_state_dups.test_questions = [("a", "x")]) ∧
    ((show_next_question question_state_dups take_sample id "5").2.isQuestion = true ∧
     ((show_next_question question_state_dups take_sample id "5").2.optionList).Nodup) :=
  ⟨rfl, c10_options_pairwise_distinct question_state_dups take_sample id "5"
    ("a", "x") [] rfl take_sample_spec (fun l => List.Perm.refl l)⟩

theorem c1_session_presents_each_pair_once_witness :
    (∀ a ∈ ["gato", "zzz"], a ≠ "") ∧
    (((show_next_question start_two_pairs take_sample id "5").1.current_question.toList
        ++ (run_answers take_sample id "5"
            (show_next_question start_two_pairs take_sample id "5").1
            ["gato", "zzz"]).2.1)
      = [("cat", "gato"), ("hello", "hola")] ∧
     List.Perm
       ((show_next_question start_two_pairs take_sample id "5").1.current_question.toList
        ++ (run_answers take_sample id "5"
            (show_next_question start_two_pairs take_sample id "5").1
            ["gato", "zzz"]).2.1)
       [("hello", "hola"), ("cat", "gato")] ∧
     (run_answers take_sample id "5"
        (show_next_question start_two_pairs take_sample id "5").1
        ["gato", "zzz"]).1.test_questions = [] ∧
     finished_last (run_answers take_sample id "5"
        (show_next_question start_two_pairs take_sample id "5").1
        ["gato", "zzz"]).2.2 = true) :=
  ⟨by decide,
   c1_session_presents_each_pair_once
     [("hello", "hola"), ("cat", "gato")] [("cat", "gato"), ("hello", "hola")]
     TestMode.verbal take_sample id "5" ["gato", "zzz"]
     (by decide) (by decide) (by decide) (by decide)
     start_two_pairs (by decide)⟩

/-- Counterexample to claim C3 as stated ("at every point during a
session, score plus recorded incorrect items equals the session total"):
immediately after starting a single-pair session and presenting the
first question — a point during the session — the sum is 0 while the
total is 1. -/
theorem c3_counterexample :
    (start_test_common TestMode.verbal [("hello", "hola")]
        [("hello", "hola")]).isSome = true ∧
    (show_next_question ((start_test_common TestMode.verbal [("hello", "hola")]
        [("hello", "hola")]).getD default_test_state) take_sample id "5").1.score
      + (show_next_question ((start_test_common TestMode.verbal [("hello", "hola")]
        [("hello", "hola")]).getD default_test_state) take_sample id "5").1.incorrect_items.length
      = 0 ∧
    (show_next_question ((start_test_common TestMode.verbal [("hello", "hola")]
        [("hello", "hola")]).getD default_test_state) take_sample id "5").1.total_questions
      = 1 := by
  refine ⟨rfl, ?_, ?_⟩ <;> decide

/-- Claim C3 (amended): score plus the number of recorded incorrect
items equals the number of answers submitted so far, not the session
total; the two coincide exactly when all `len(pairs)` answers have been
submitted, i.e. at session completion. -/
theorem c3_amended_score_plus_incorrect_counts_answers
    (content q : List (String × String)) (mode : TestMode)
    (sample : List String → Nat → List String) (shuf : List String → List String)
    (entry : String) (answers : List String)
    (hne : content ≠ []) (hq : q.Perm content)
    (hans : ∀ a ∈ answers, a ≠ "")
    (hlen : answers.length ≤ content.length) :
    ∀ st0, start_test_common mode content q = some st0 →
      (run_answers sample shuf entry
          (show_next_question st0 sample shuf entry).1 answers).1.score
        + (run_answers sample shuf entry
            (show_next_question st0 sample shuf entry).1 answers).1.incorrect_items.length
        = answers.length ∧
      (answers.length = content.length →
        (run_answers sample shuf entry
            (show_next_question st0 sample shuf entry).1 answers).1.score
          + (run_answers sample shuf entry
              (show_next_question st0 sample shuf entry).1 answers).1.incorrect_items.length
          = (run_answers sample shuf entry
              (show_next_question st0 sample shuf entry).1 answers).1.total_questions) := by
  intro st0 hst0
  unfold start_test_common at hst0
  rw [if_neg (fun h => hne (List.isEmpty_iff.mp h))] at hst0
  injection hst0 with hst0
  subst hst0
  cases hqq : q with
  | nil =>
    exfalso
    subst hqq
    exact hne hq.symm.eq_nil
  | cons p qt =>
    rw [hqq] at hq
    have hcount : qt.length + 1 = content.length := by
      have h1 : (p :: qt).length = content.length := hq.length_eq
      simp only [List.length_cons] at h1
      omega
    have hshow := show_next_question_cons
      { content := content, test_questions := p :: qt, score := 0,
        total_questions := (p :: qt).length, question_count := 0,
        incorrect_items := [], current_question := none, test_mode := mode }
      sample shuf entry p qt rfl
    have hcur : (show_next_question
        { content := content, test_questions := p :: qt, score := 0,
          total_questions := (p :: qt).length, question_count := 0,
          incorrect_items := [], current_question := none, test_mode := mode }
        sample shuf entry).1.current_question = some p := by
      rw [hshow]
    have htq : (show_next_question
        { content := content, test_questions := p :: qt, score := 0,
          total_questions := (p :: qt).length, question_count := 0,
          incorrect_items := [], current_question := none, test_mode := mode }
        sample shuf entry).1.test_questions = qt := by
      rw [hshow]
    have hsc : (show_next_question
        { content := content, test_questions := p :: qt, score := 0,
          total_questions := (p :: qt).length, question_count := 0,
          incorrect_items := [], current_question := none, test_mode := mode }
        sample shuf entry).1.score = 0 := by
      rw [hshow]
    have hinc : (show_next_question
        { content := content, test_questions := p :: qt, score := 0,
          total_questions := (p :: qt).length, question_count := 0,
          incorrect_items := [], current_question := none, test_mode := mode }
        sample shuf entry).1.incorrect_items = [] := by
      rw [hshow]
    have htot : (show_next_question
        { content := content, test_questions := p :: qt, score := 0,
          total_questions := (p :: qt).length, question_count := 0,
          incorrect_items := [], current_question := none, test_mode := mode }
        sample shuf entry).1.total_questions = (p :: qt).length := by
      rw [hshow]
    obtain ⟨i1, i2, i3, i4, i5⟩ := run_answers_invariant sample shuf entry answers
      (show_next_question
        { content := content, test_questions := p :: qt, score := 0,
          total_questions := (p :: qt).length, question_count := 0,
          incorrect_items := [], current_question := none, test_mode := mode }
        sample shuf entry).1 p hcur hans (by rw [htq]; omega)
    constructor
    · rw [i3, hsc, hinc]
      simp
    · intro hfull
      rw [i3, hsc, hinc, i4, htot]
      simp only [List.length_nil, List.length_cons]
      omega

theorem c3_amended_score_plus_incorrect_counts_answers_witness :
    (∀ a ∈ ["zzz"], a ≠ "") ∧
    ((run_answers take_sample id "5"
        (show_next_question start_two_pairs take_sample id "5").1 ["zzz"]).1.score
      + (run_answers take_sample id "5"
          (show_next_question start_two_pairs take_sample id "5").1
          ["zzz"]).1.incorrect_items.length
      = 1 ∧
     (["zzz"].length
        = ([("hello", "hola"), ("cat", "gato")] : List (String × String)).length →
      (run_answers take_sample id "5"
          (show_next_question start_two_pairs take_sample id "5").1 ["zzz"]).1.score
        + (run_answers take_sample id "5"
            (show_next_question start_two_pairs take_sample id "5").1
            ["zzz"]).1.incorrect_items.length
        = (run_answers take_sample id "5"
            (show_next_question start_two_pairs take_sample id "5").1
            ["zzz"]).1.total_questions)) :=
  ⟨by decide,
   c3_amended_score_plus_incorrect_counts_answers
     [("hello", "hola"), ("cat", "gato")] [("cat", "gato"), ("hello", "hola")]
     TestMode.verbal take_sample id "5" ["zzz"]
     (by decide) (by decide) (by decide) (by decide)
     start_two_pairs (by decide)⟩

/-- Counterexample to claim C4 as stated: requesting one more question
after the session has completed does not fail with a
`SessionCompleteError` — the source has no such error path at all
(tutor.py lines 752-766 return normally). On a completed single-pair
session the call returns the terminal report again, and so does a
further call; neither produces a question and neither fails. -/
theorem c4_counterexample :
    (show_next_question completed_state_one_pair take_sample id "5").2
      = NextResult.finished 1 1 "Excellent job!" [] ∧
    (show_next_question
        (show_next_question completed_state_one_pair take_sample id "5").1
        take_sample id "5").2
      = NextResult.finished 1 1 "Excellent job!" [] := by
  constructor <;> with_unfolding_all decide

/-- Claim C4 (amended): once the pending queue is empty the session is
terminal — `show_next_question` displays the final report; the queue
stays empty, and requesting one more question displays the report again
(incrementing only the question counter) rather than producing a
question or raising an error. -/
theorem c4_amended_completed_is_terminal (st : TestState)
    (sample : List String → Nat → List String) (shuf : List String → List String)
    (entry : String) (h : st.test_questions = []) :
    (show_next_question st sample shuf entry).2.isFinished = true ∧
    (show_next_question st sample shuf entry).1.test_questions = [] ∧
    (show_next_question (show_next_question st sample shuf entry).1
        sample shuf entry).2.isFinished = true ∧
    (show_next_question (show_next_question st sample shuf entry).1
        sample shuf entry).2.isQuestion = false := by
  have h1 := show_next_question_nil st sample shuf entry h
  have h2 := show_next_question_nil
    { st with question_count := st.question_count + 1 } sample shuf entry
    (by exact h)
  rw [h1]
  refine ⟨rfl, h, ?_, ?_⟩ <;> rw [h2] <;> rfl

theorem c4_amended_completed_is_terminal_witness :
    (completed_state_one_pair.test_questions = []) ∧
    ((show_next_question completed_state_one_pair take_sample id "5").2.isFinished = true ∧
     (show_next_question completed_state_one_pair take_sample id "5").1.test_questions = [] ∧
     (show_next_question (show_next_question completed_state_one_pair take_sample id "5").1
        take_sample id "5").2.isFinished = true ∧
     (show_next_question (show_next_question completed_state_one_pair take_sample id "5").1
        take_sample id "5").2.isQuestion = false) :=
  ⟨rfl, c4_amended_completed_is_terminal completed_state_one_pair
    take_sample id "5" rfl⟩

/-- Claim C5: a requested max-options value below 2 or an unparseable
entry text is not an error: `show_next_question` silently uses 4 as the
effective maximum; a parsed value of at least 2 is honoured. -/
theorem c5_max_options_fallback (s : String) (n : Int) :
    (parse_int s = none → effective_max_display s = 4) ∧
    (parse_int s = some n → n < 2 → effective_max_display s = 4) ∧
    (parse_int s = some n → 2 ≤ n → effective_max_display s = n) ∧
    (effective_max_display s = 4 →
      ∀ (st : TestState) (sample : List String → Nat → List String)
        (shuf : List String → List String),
        show_next_question st sample shuf s
          = show_next_question st sample shuf "4") := by
  refine ⟨?_, ?_, ?_, ?_⟩
  · intro h
    unfold effective_max_display
    rw [h]
  · intro h hlt
    unfold effective_max_display
    rw [h]
    simp only [if_pos hlt]
  · intro h hge
    unfold effective_max_display
    rw [h]
    simp only
    rw [if_neg (by omega)]
  · intro h4 st sample shuf
    exact show_next_question_entry_congr st sample shuf s "4" (by rw [h4]; decide)

theorem c5_max_options_fallback_witness :
    (parse_int "abc" = none ∧ parse_int "1" = some 1 ∧ parse_int "7" = some 7) ∧
    (effective_max_display "abc" = 4 ∧ effective_max_display "1" = 4 ∧
     effective_max_display "7" = 7) :=
  ⟨⟨by decide, by decide, by decide⟩,
   ⟨(c5_max_options_fallback "abc" 1).1 (by decide),
    (c5_max_options_fallback "1" 1).2.1 (by decide) (by decide),
    (c5_max_options_fallback "7" 7).2.2.1 (by decide) (by decide)⟩⟩

/-- Claim C6: when an incorrect answer is submitted — in either test
mode — the appended incorrect-item record is
`(question order, english source text, correct answer, chosen answer)`:
the recorded prompt text is `current_question[0]`, the
source-language text, even in audio mode where the prompt actually
played to the user is the target text `current_question[1]`
(see `play_current_audio_text`). -/
theorem c6_incorrect_record_uses_source_text (st : TestState) (chosen : String)
    (sample : List String → Nat → List String) (shuf : List String → List String)
    (entry : String) (q : String × String)
    (hcur : st.current_question = some q) (hne : chosen ≠ "")
    (hwrong : chosen ≠ correct_answer st.test_mode q) :
    (check_answer st chosen sample shuf entry).1.incorrect_items
      = st.incorrect_items
        ++ [(st.question_count, q.1, correct_answer st.test_mode q, chosen)] ∧
    (st.test_mode = TestMode.audio → play_current_audio_text st = some q.2) := by
  constructor
  · unfold check_answer
    rw [if_neg hne, hcur]
    dsimp only
    rw [show_next_question_incorrect_items]
    unfold record_answer
    rw [if_pos hwrong]
  · intro hmode
    unfold play_current_audio_text
    rw [hcur, hmode]

theorem c6_incorrect_record_uses_source_text_witness :
    (audio_question_state.current_question = some ("hello", "hola") ∧
     audio_question_state.test_mode = TestMode.audio) ∧
    ((check_answer audio_question_state "nope" take_sample id "5").1.incorrect_items
      = audio_question_state.incorrect_items
        ++ [(audio_question_state.question_count, "hello",
             correct_answer audio_question_state.test_mode ("hello", "hola"), "nope")] ∧
     (audio_question_state.test_mode = TestMode.audio →
      play_current_audio_text audio_question_state = some "hola")) :=
  ⟨⟨rfl, rfl⟩,
   c6_incorrect_record_uses_source_text audio_question_state "nope"
     take_sample id "5" ("hello", "hola") rfl (by decide) (by decide)⟩

/-- Claim C7: the qualitative feedback of the final report is a fixed-band
function of `percentage = score/total*100` (0 when the total is 0),
inclusive at the lower bounds: at least 80 gives the top band (the
string "Excellent job!" in the source, "Excellent" in the spec),
between 50 inclusive and 80 exclusive the middle band ("Good effort,
keep practicing!" / "Good, keep practicing"), and below 50 the bottom
band ("Needs more practice."). -/
theorem c7_feedback_thresholds (score total : Nat) :
    percentage score total
      = (if total > 0 then (score : ℚ) / (total : ℚ) * 100 else 0) ∧
    (percentage score total ≥ 80 →
      feedback_text score total = "Excellent job!") ∧
    (50 ≤ percentage score total → percentage score total < 80 →
      feedback_text score total = "Good effort, keep practicing!") ∧
    (percentage score total < 50 →
      feedback_text score total = "Needs more practice.") := by
  refine ⟨rfl, ?_, ?_, ?_⟩
  · intro h
    unfold feedback_text
    rw [if_pos h]
  · intro h1 h2
    unfold feedback_text
    rw [if_neg (fun hc => absurd hc (not_le.mpr h2)), if_pos h1]
  · intro h
    unfold feedback_text
    rw [if_neg (fun hc => absurd hc (not_le.mpr (lt_of_lt_of_le h (by norm_num)))),
        if_neg (fun hc => absurd hc (not_le.mpr h))]

theorem c7_feedback_thresholds_witness :
    (percentage 4 5 ≥ 80 ∧ 50 ≤ percentage 1 2 ∧ percentage 1 2 < 80 ∧
     percentage 0 3 < 50) ∧
    (feedback_text 4 5 = "Excellent job!" ∧
     feedback_text 1 2 = "Good effort, keep practicing!" ∧
     feedback_text 0 3 = "Needs more practice.") :=
  ⟨⟨by with_unfolding_all decide, by with_unfolding_all decide,
    by with_unfolding_all decide, by with_unfolding_all decide⟩,
   ⟨(c7_feedback_thresholds 4 5).2.1 (by with_unfolding_all decide),
    (c7_feedback_thresholds 1 2).2.2.1 (by with_unfolding_all decide)
      (by with_unfolding_all decide),
    (c7_feedback_thresholds 0 3).2.2.2 (by with_unfolding_all decide)⟩⟩

/-- Claim C8: submitting a blank answer while a question is presented
is rejected (the "Please select an answer." guard of tutor.py lines
807-809, modelled as `noSelection`) and the whole session state —
score, incorrect-item log, pending queue and current question — is
returned exactly unchanged. -/
theorem c8_blank_answer_rejected (st : TestState)
    (sample : List String → Nat → List String) (shuf : List String → List String)
    (entry : String) (q : String × String)
    (_hcur : st.current_question = some q) :
    check_answer st "" sample shuf entry = (st, CheckResult.noSelection) := by
  unfold check_answer
  rw [if_pos rfl]

theorem c8_blank_answer_rejected_witness :
    (audio_question_state.current_question = some ("hello", "hola")) ∧
    check_answer audio_question_state "" take_sample id "5"
      = (audio_question_state, CheckResult.noSelection) :=
  ⟨rfl, c8_blank_answer_rejected audio_question_state take_sample id "5"
    ("hello", "hola") rfl⟩

/-- Claim C9: the difficulty label embedded in the content-generation
query is computed by applying `map_difficulty_to_level` to the *target
language code*, not to the user-selected difficulty (which
`process_learning` never forwards — the query is independent of it);
since the only selectable codes "es" and "ru" are not difficulty keys,
the label is always the fallback "Intermediate". -/
theorem c9_difficulty_label_always_intermediate :
    (∀ (concept language : String) (num_items : Nat) (d₁ d₂ : String),
      process_learning_query concept language num_items d₁
        = process_learning_query concept language num_items d₂) ∧
    (∀ (concept : String) (num_items : Nat) (target_language : String),
      request_concept_user_query concept num_items target_language
        = request_concept_user_query_with_label concept num_items
            (map_difficulty_to_level target_language) target_language) ∧
    map_difficulty_to_level "es" = "Intermediate" ∧
    map_difficulty_to_level "ru" = "Intermediate" :=
  ⟨fun _ _ _ _ _ => rfl, fun _ _ _ => rfl, by decide, by decide⟩
